import Mathlib

/-!
Verification of the `pyodide_http` synchronous streaming bridge.

The definitions below are a shallow embedding of `_streaming.py`,
`_core.py` and `_urllib.py`.  Bytes are modelled as `Nat`, byte strings
as `List Nat`, Python dicts (which preserve insertion order) as
association lists, and the slot-0 signal value of the shared
`Int32Array` control header as `Int`.  The asynchronous fetch worker is
modelled by the value it writes into the control header (a `WorkerReply`
observed when the consumer's `Atomics.wait` returns), and the messages
the consumer posts to the worker (`getMore` / `close`) are collected in
an explicit list.
-/

namespace PyodideHttp

/-- Signal constants from `_streaming.py`. -/
def SUCCESS_HEADER : Int := -1

/-- Signal constant: end of stream. -/
def SUCCESS_EOF : Int := -2

/-- Signal constant: worker-reported timeout. -/
def ERROR_TIMEOUT : Int := -3

/-- Signal constant: worker-reported fetch exception. -/
def ERROR_EXCEPTION : Int := -4

/-- The `Request` dataclass of `_core.py`.  `params` is an optional
insertion-ordered dict, `body` optional bytes, `timeout` an int. -/
structure Request where
  method : String
  url : String
  params : Option (List (String × String))
  body : Option (List Nat)
  headers : List (String × String)
  timeout : Int
deriving DecidableEq

/-- What the consumer observes when its blocking `Atomics.wait` on header
slot 0 returns: either the slot value (with slot 1 and the payload region
as written by the worker), or a local wait timeout with the slot still at
the reset sentinel. -/
inductive WorkerReply
  | signal (value : Int) (slot1 : Nat) (payload : List Nat)
  | timedOut
deriving DecidableEq

/-- A message posted to the fetch worker via `postMessage`. -/
inductive Msg
  | getMore (id : Nat)
  | close (id : Nat)
deriving DecidableEq

/-- Outcome of one `_ReadStream.readinto` call: the bytes copied into the
caller's buffer, or a raised bare `_StreamingTimeout` / `_StreamingError`
(the `readinto` raise sites pass no message and no request). -/
inductive ReadResult
  | bytes (data : List Nat)
  | raiseTimeout
  | raiseStreamingError
deriving DecidableEq

/-- State of a `_ReadStream`: `buffer_live` is whether `int_buffer` (and
`byte_buffer`) are still held (they are set to `None` on EOF), `chunk` is
the current contents of the payload region of `byte_buffer`, and
`read_pos` / `read_len` are the local cursor and remaining count. -/
structure ReadStream where
  buffer_live : Bool
  chunk : List Nat
  read_pos : Nat
  read_len : Nat
  connection_id : Nat
  timeout : Option Int
deriving DecidableEq

/-- `_ReadStream.__init__`: fresh stream bound to a connection id, with
the payload region currently holding whatever the worker last wrote
(`byte_buffer` content) and no locally buffered bytes. -/
def ReadStream.init (byte_buffer : List Nat) (timeout : Int) (connection_id : Nat) : ReadStream :=
  { buffer_live := true
    chunk := byte_buffer
    read_pos := 0
    read_len := 0
    connection_id := connection_id
    timeout := if 0 < timeout then some (1000 * timeout) else none }

/-- `_ReadStream.__del__`: posts the close message for the connection. -/
def ReadStream.del (s : ReadStream) : List Msg :=
  [Msg.close s.connection_id]

/-- The copy step at the end of `_ReadStream.readinto`: copy
`min(read_len, len(byte_obj))` bytes of `byte_buffer` starting at
`read_pos` into the caller's buffer, advance the cursor, decrement the
remaining count, and return the copy length. -/
def ReadStream.copyOut (s : ReadStream) (bufsize : Nat) (msgs : List Msg) :
    ReadResult × ReadStream × List Msg :=
  (ReadResult.bytes ((s.chunk.drop s.read_pos).take (min s.read_len bufsize)),
   { s with read_len := s.read_len - min s.read_len bufsize,
            read_pos := s.read_pos + min s.read_len bufsize },
   msgs)

/-- `_ReadStream.readinto`: if the buffers were already released return 0;
if no bytes are locally buffered, post `getMore` and block, then dispatch
on the observed slot-0 value (`> 0` chunk, `ERROR_EXCEPTION` raise, any
other value treated as EOF: release the buffers and return 0); finally
copy out of the current chunk. -/
def ReadStream.readinto (s : ReadStream) (reply : WorkerReply) (bufsize : Nat) :
    ReadResult × ReadStream × List Msg :=
  if s.buffer_live = false then
    (ReadResult.bytes [], s, [])
  else if s.read_len = 0 then
    match reply with
    | WorkerReply.timedOut => (ReadResult.raiseTimeout, s, [Msg.getMore s.connection_id])
    | WorkerReply.signal data_len _ payload =>
      if 0 < data_len then
        ReadStream.copyOut
          { s with read_len := data_len.toNat, read_pos := 0, chunk := payload }
          bufsize [Msg.getMore s.connection_id]
      else if data_len = ERROR_EXCEPTION then
        (ReadResult.raiseStreamingError, s, [Msg.getMore s.connection_id])
      else
        (ReadResult.bytes [],
         { s with read_len := 0, read_pos := 0, buffer_live := false, chunk := [] },
         [Msg.getMore s.connection_id])
  else
    ReadStream.copyOut s bufsize []

/-- The reply a chunk-delivering worker produces for the next `getMore`:
the head chunk of its queue (slot 0 = chunk length, payload = chunk), or
the EOF signal when the queue is empty. -/
def ReadStream.drainReply (cs : List (List Nat)) : WorkerReply :=
  match cs with
  | c :: _ => WorkerReply.signal (Int.ofNat c.length) 0 c
  | [] => WorkerReply.signal SUCCESS_EOF 0 []

/-- Drive `readinto` repeatedly (buffer size for the `i`-th call given by
`sizes i`) against a worker holding the chunk queue `cs`, collecting all
returned bytes, until a call returns 0 bytes.  `fuel` bounds the number
of calls; the worker pops its queue exactly when the stream actually
pulls (no locally buffered bytes). -/
def ReadStream.drain : Nat → (Nat → Nat) → Nat → List (List Nat) → ReadStream → List Nat
  | 0, _, _, _, _ => []
  | fuel + 1, sizes, i, cs, s =>
    match s.readinto (ReadStream.drainReply cs) (sizes i) with
    | (ReadResult.bytes out, s2, _) =>
      if out.isEmpty then []
      else out ++ ReadStream.drain fuel sizes (i + 1)
        (if s.read_len = 0 then cs.tail else cs) s2
    | _ => []

/-- The `response_obj` decoded from the header JSON blob in
`_StreamingFetcher.send`. -/
structure RespObj where
  status : Int
  headers : List (String × String)
  connectionID : Nat
deriving DecidableEq

/-- Outcome of `_StreamingFetcher.send`: a constructed `Response`
(status, headers and the `_ReadStream`-backed body, `stream=True`), a
raised `_StreamingTimeout` or `_StreamingError` (both carry a message and
the original request), or the implicit `None` returned when every signal
check fails. -/
inductive SendResult
  | response (obj : RespObj) (body : ReadStream)
  | raiseTimeout (msg : String) (req : Request)
  | raiseStreamingError (msg : String) (req : Request)
  | returnsNone
deriving DecidableEq

/-- `_StreamingFetcher.send`, from the point where its `Atomics.wait`
returns: `slot0`, `slot1` and `payload` are the control-header contents
it then observes (`slot0 = 0` when the local wait timed out and the
worker wrote nothing), `decodeText` is the `TextDecoder` oracle and
`parseObj` the `json.loads` oracle for the header blob.  The dispatch
order is the source's: `== 0` raise timeout, `== SUCCESS_HEADER` build
the streaming response, `== ERROR_EXCEPTION` raise, otherwise fall off
the end and return `None`. -/
def StreamingFetcher.send (req : Request) (slot0 : Int) (slot1 : Nat)
    (payload : List Nat) (decodeText : List Nat → String)
    (parseObj : String → RespObj) : SendResult :=
  if slot0 = 0 then
    SendResult.raiseTimeout ("Timeout connecting to streaming request") req
  else if slot0 = SUCCESS_HEADER then
    let json_str := decodeText (payload.take slot1)
    let obj := parseObj json_str
    SendResult.response obj (ReadStream.init payload req.timeout obj.connectionID)
  else if slot0 = ERROR_EXCEPTION then
    SendResult.raiseStreamingError
      ("Exception thrown in fetch: " ++ decodeText (payload.take slot1)) req
  else
    SendResult.returnsNone

/-- `send_streaming_request(request, credentials)` has two positional
parameters. -/
def send_streaming_request_paramCount : Nat := 2

/-- `send_streaming_request` has no parameter defaults. -/
def send_streaming_request_defaultCount : Nat := 0

/-- The call `send_streaming_request(request)` inside `orig_send` passes
one positional argument. -/
def orig_send_streamingCall_argCount : Nat := 1

/-- Python positional-argument binding for a plain function: the call
binds iff at least `paramCount - defaultCount` and at most `paramCount`
positional arguments are supplied; otherwise the call raises
`TypeError`. -/
def pyPositionalCallBinds (paramCount defaultCount provided : Nat) : Bool :=
  decide (paramCount - defaultCount ≤ provided) && decide (provided ≤ paramCount)

/-- Outcome of `orig_send`'s dispatch between its streaming branch and
the `XMLHttpRequest` fallback. -/
inductive OrigSendOutcome
  | typeError
  | streamingResponse
  | xhrFallback
deriving DecidableEq

/-- `orig_send`'s control flow around the streaming branch: when
`stream` is requested and the code runs in a worker, it evaluates
`send_streaming_request(request)`; that call only reaches
`_StreamingFetcher.send` if Python's positional binding succeeds,
otherwise the call raises `TypeError`.  Outside the streaming branch the
`XMLHttpRequest` fallback runs.  The second component records whether
`_StreamingFetcher.send` was reached. -/
def orig_send_dispatch (stream in_worker : Bool) : OrigSendOutcome × Bool :=
  if stream && in_worker then
    if pyPositionalCallBinds send_streaming_request_paramCount
        send_streaming_request_defaultCount orig_send_streamingCall_argCount then
      (OrigSendOutcome.streamingResponse, true)
    else
      (OrigSendOutcome.typeError, false)
  else
    (OrigSendOutcome.xhrFallback, false)

/-- The `blocked_headers` list of `send` in `_core.py`. -/
def blocked_headers : List String :=
  ["sec-fetch-mode", "accept-encoding", "origin", "referer", "user-agent", "cookie", "cookie2"]

/-- The `proxy_headers` list of `send` in `_core.py`. -/
def proxy_headers : List String := ["origin"]

/-- The `credentials_headers` list of `send` in `_core.py`. -/
def credentials_headers : List String := ["cookie", "cookie2"]

/-- ASCII lower-casing of one character, as Python `str.lower` acts on
ASCII header names. -/
def lowerAsciiChar (c : Char) : Char :=
  if 'A' ≤ c ∧ c ≤ 'Z' then Char.ofNat (c.toNat + 32) else c

/-- ASCII lower-casing of a string. -/
def lowerAscii (s : String) : String :=
  String.mk (s.data.map lowerAsciiChar)

/-- One iteration of the header loop of `send` in `_core.py`, folding
`(new_headers, proxy, credentials)` over the request's headers: blocked
headers are dropped (setting the proxy / credentials flags when they are
also proxy / credentials headers), all others are kept in order. -/
def send_header_step (acc : List (String × String) × Bool × Bool) (kv : String × String) :
    List (String × String) × Bool × Bool :=
  if lowerAscii kv.1 ∈ blocked_headers then
    (acc.1,
     acc.2.1 || decide (lowerAscii kv.1 ∈ proxy_headers),
     acc.2.2 || decide (lowerAscii kv.1 ∈ credentials_headers))
  else
    (acc.1 ++ [kv], acc.2.1, acc.2.2)

/-- The full header loop of `send` in `_core.py`. -/
def send_process_headers (hs : List (String × String)) :
    List (String × String) × Bool × Bool :=
  hs.foldl send_header_step ([], false, false)

/-- The mutation `request.headers = new_headers` performed by `send` in
`_core.py`, as a transform of the request value. -/
def send_request_transform (r : Request) : Request :=
  { r with headers := (send_process_headers r.headers).1 }

/-- Python truthiness of the optional `params` dict (`None` and the
empty dict are falsy). -/
def pyTruthyParams : Option (List (String × String)) → Bool
  | none => false
  | some l => !l.isEmpty

/-- The mutation `request.url += "?" + params.toString()` performed at
the top of `orig_send` when `request.params` is truthy; `enc` is the
`URLSearchParams.toString()` oracle. -/
def orig_send_params_transform (enc : String) (r : Request) : Request :=
  if pyTruthyParams r.params then { r with url := r.url ++ ("?") ++ enc } else r

/-- ASCII encoding of a string to bytes, as `str.encode("ascii")`. -/
def asciiBytes (s : String) : List Nat :=
  s.data.map Char.toNat

/-- The header filter of `urlopen` in `_urllib.py`: keep every response
header whose lower-cased name is not in
`["content-length", "transfer-encoding"]`. -/
def headers_without_content_length (hs : List (String × String)) :
    List (String × String) :=
  hs.filter (fun kv =>
    !(decide (lowerAscii kv.1 ∈ [("content-length" : String), ("transfer-encoding" : String)])))

/-- The synthetic `response_header` byte block of `urlopen`:
`b"HTTP/1.1 " + str(status).encode() + b"\n"` followed by the
`"\n"`-joined `key: value` lines of the filtered headers and `b"\n\n"`. -/
def response_header (status : Int) (hs : List (String × String)) : List Nat :=
  asciiBytes ("HTTP/1.1 ")
    ++ asciiBytes (toString status)
    ++ asciiBytes ("\n")
    ++ asciiBytes (String.intercalate ("\n")
        ((headers_without_content_length hs).map (fun kv => kv.1 ++ (": ") ++ kv.2)))
    ++ asciiBytes ("\n\n")

/-- The non-streaming `response_data` bytes of `urlopen`: the synthetic
header block followed by the materialized body. -/
def response_data (status : Int) (hs : List (String × String)) (body : List Nat) : List Nat :=
  response_header status hs ++ body

/-- State of a `PrefixedReader` from `_urllib.py`: the undelivered part
of the constant byte prefix (`None` once fully served) and the remaining
bytes of the wrapped body reader. -/
structure PrefixedReader where
  pfx : Option (List Nat)
  rdr : List Nat
deriving DecidableEq

/-- `PrefixedReader.readinto`: serve from the prefix while any remains
(topping up from the reader once the prefix is exhausted within this
call), else read straight from the reader; returns the bytes written
into the caller's buffer and the new state. -/
def PrefixedReader.readinto (s : PrefixedReader) (size : Nat) :
    List Nat × PrefixedReader :=
  match s.pfx with
  | some p =>
    if p.length ≤ size then
      (p ++ s.rdr.take (size - p.length),
       { pfx := none, rdr := s.rdr.drop (size - p.length) })
    else
      (p.take size, { pfx := some (p.drop size), rdr := s.rdr })
  | none =>
    (s.rdr.take size, { pfx := none, rdr := s.rdr.drop size })

/-- Drive `PrefixedReader.readinto` repeatedly (buffer size for the
`i`-th call given by `sizes i`), collecting all returned bytes, until a
call returns 0 bytes. -/
def PrefixedReader.drain : Nat → (Nat → Nat) → Nat → PrefixedReader → List Nat
  | 0, _, _, _ => []
  | fuel + 1, sizes, i, s =>
    if (s.readinto (sizes i)).1.isEmpty then []
    else (s.readinto (sizes i)).1
      ++ PrefixedReader.drain fuel sizes (i + 1) (s.readinto (sizes i)).2

/-- The `urllib.error.HTTPError` raised by `urlopen`, with the fields it
is constructed from: `response.url`, `response.status`, the formatted
message, and `response.headers`. -/
structure HTTPError where
  url : String
  code : Int
  msg : String
  hdrs : List (String × String)
deriving DecidableEq

/-- The parsed `HTTPResponse` as far as the final status check of
`urlopen` inspects it. -/
structure ParsedResponse where
  url : String
  status : Int
  headers : List (String × String)
deriving DecidableEq

/-- The final status check of `urlopen`: raise `HTTPError` when the
status is not in `200 <= status < 300`, otherwise return the response. -/
def urlopen_status_check (resp : ParsedResponse) : Except HTTPError ParsedResponse :=
  if ¬ (200 ≤ resp.status ∧ resp.status < 300) then
    Except.error
      { url := resp.url, code := resp.status,
        msg := ("HTTP Error ") ++ toString resp.status, hdrs := resp.headers }
  else
    Except.ok resp

/-! ### Concrete states and inputs used by witnesses and counterexamples -/

/-- A live read stream with nothing locally buffered, connection id 7. -/
def streamLive : ReadStream :=
  { buffer_live := true, chunk := [], read_pos := 0, read_len := 0,
    connection_id := 7, timeout := none }

/-- The stream `streamLive` after its buffers were released. -/
def streamDead : ReadStream :=
  { buffer_live := false, chunk := [], read_pos := 0, read_len := 0,
    connection_id := 7, timeout := none }

/-- A concrete request. -/
def req0 : Request :=
  { method := "GET", url := "https://example.test/data", params := none,
    body := none, headers := [], timeout := 0 }

/-- A trivial `TextDecoder` oracle. -/
def decode0 : List Nat → String := fun _ => ("")

/-- A trivial `json.loads` oracle. -/
def parse0 : String → RespObj := fun _ => { status := 0, headers := [], connectionID := 0 }

/-- Concrete headers for the C8 witness, containing a Content-Length
header that must be stripped case-insensitively. -/
def hsW : List (String × String) := [("Content-Length", "3"), ("X-A", "b")]

/-- A concrete out-of-2xx parsed response. -/
def resp404 : ParsedResponse :=
  { url := "https://example.test/data", status := 404, headers := [("x", "y")] }

/-- A concrete 2xx parsed response. -/
def resp200 : ParsedResponse :=
  { url := "https://example.test/data", status := 200, headers := [] }

/-- A concrete request carrying a blocked `origin` header. -/
def reqOrigin : Request :=
  { method := "GET", url := "u", params := none, body := none,
    headers := [("origin", "x")], timeout := 0 }

/-- A concrete request carrying a truthy `params` dict. -/
def reqParams : Request :=
  { method := "GET", url := "u", params := some [("a", "b")], body := none,
    headers := [], timeout := 0 }

/-! ### Characterizations of `ReadStream.readinto` -/

/-- With released buffers, `readinto` returns 0 bytes, changes nothing
and posts nothing. -/
theorem ReadStream.readinto_dead (s : ReadStream) (reply : WorkerReply) (bufsize : Nat)
    (h : s.buffer_live = false) :
    s.readinto reply bufsize = (ReadResult.bytes [], s, []) := by
  simp [ReadStream.readinto, h]

/-- With live buffers and no locally buffered bytes, a positive chunk
signal delivers `min` of the chunk length and the buffer size. -/
theorem ReadStream.readinto_chunk (s : ReadStream) (n : Nat) (slot1 bufsize : Nat)
    (payload : List Nat) (hl : s.buffer_live = true) (h0 : s.read_len = 0) (hn : 0 < n) :
    s.readinto (WorkerReply.signal (Int.ofNat n) slot1 payload) bufsize =
      (ReadResult.bytes (payload.take (min n bufsize)),
       { s with read_len := n - min n bufsize,
                read_pos := min n bufsize,
                chunk := payload },
       [Msg.getMore s.connection_id]) := by
  have hpos : 0 < Int.ofNat n := Int.natCast_pos.mpr hn
  simp [ReadStream.readinto, ReadStream.copyOut, hl, h0, hpos, hn, hn.ne']

/-- With live buffers and no locally buffered bytes, the exception
signal raises a bare streaming error, leaving the state unchanged. -/
theorem ReadStream.readinto_exception (s : ReadStream) (slot1 bufsize : Nat)
    (payload : List Nat) (hl : s.buffer_live = true) (h0 : s.read_len = 0) :
    s.readinto (WorkerReply.signal ERROR_EXCEPTION slot1 payload) bufsize =
      (ReadResult.raiseStreamingError, s, [Msg.getMore s.connection_id]) := by
  simp [ReadStream.readinto, hl, h0, ERROR_EXCEPTION]

/-- With live buffers and no locally buffered bytes, every non-positive
signal other than the exception signal lands in the EOF branch: the
buffers are released and 0 bytes are returned. -/
theorem ReadStream.readinto_eofLike (s : ReadStream) (n : Int) (slot1 bufsize : Nat)
    (payload : List Nat) (hl : s.buffer_live = true) (h0 : s.read_len = 0)
    (hn : ¬ 0 < n) (hne : n ≠ ERROR_EXCEPTION) :
    s.readinto (WorkerReply.signal n slot1 payload) bufsize =
      (ReadResult.bytes [],
       { s with read_len := 0, read_pos := 0, buffer_live := false, chunk := [] },
       [Msg.getMore s.connection_id]) := by
  simp [ReadStream.readinto, hl, h0, hn, hne]

/-- With live buffers and locally buffered bytes, `readinto` copies from
the current chunk without any worker interaction. -/
theorem ReadStream.readinto_buffered (s : ReadStream) (reply : WorkerReply) (bufsize : Nat)
    (hl : s.buffer_live = true) (h0 : s.read_len ≠ 0) :
    s.readinto reply bufsize =
      (ReadResult.bytes ((s.chunk.drop s.read_pos).take (min s.read_len bufsize)),
       { s with read_len := s.read_len - min s.read_len bufsize,
                read_pos := s.read_pos + min s.read_len bufsize },
       []) := by
  simp [ReadStream.readinto, ReadStream.copyOut, hl, h0]

/-! ### Chunk reassembly -/

/-- One-step unfolding of `drain` when `readinto` returns bytes. -/
theorem ReadStream.drain_succ (fuel : Nat) (sizes : Nat → Nat) (i : Nat)
    (cs : List (List Nat)) (s : ReadStream) (out : List Nat) (s2 : ReadStream)
    (msgs : List Msg)
    (hr : s.readinto (ReadStream.drainReply cs) (sizes i) = (ReadResult.bytes out, s2, msgs)) :
    ReadStream.drain (fuel + 1) sizes i cs s =
      if out.isEmpty then []
      else out ++ ReadStream.drain fuel sizes (i + 1)
        (if s.read_len = 0 then cs.tail else cs) s2 := by
  rw [ReadStream.drain, hr]

/-- Invariant-carrying drain lemma: from any live state whose cursor and
remaining count describe the tail of the current chunk, draining against
a queue of nonempty chunks yields the unread tail followed by the
concatenation of the queue. -/
theorem ReadStream.drain_spec (sizes : Nat → Nat) (hsz : ∀ j, 0 < sizes j) :
    ∀ fuel : Nat, ∀ cs : List (List Nat), ∀ s : ReadStream, ∀ i : Nat,
      s.buffer_live = true →
      s.read_pos + s.read_len ≤ s.chunk.length →
      (∀ c ∈ cs, c ≠ []) →
      s.read_len + (cs.map List.length).sum < fuel →
      ReadStream.drain fuel sizes i cs s =
        (s.chunk.drop s.read_pos).take s.read_len ++ cs.flatten := by
  intro fuel
  induction fuel with
  | zero =>
    intro cs s i _ _ _ hf
    omega
  | succ fuel ih =>
    intro cs s i hlive hinv hcs hf
    by_cases h0 : s.read_len = 0
    · cases cs with
      | nil =>
        have hr2 : s.readinto (ReadStream.drainReply []) (sizes i) =
            (ReadResult.bytes [],
             { s with read_len := 0, read_pos := 0, buffer_live := false, chunk := [] },
             [Msg.getMore s.connection_id]) := by
          rw [ReadStream.drainReply]
          exact ReadStream.readinto_eofLike s SUCCESS_EOF 0 (sizes i) [] hlive h0
            (by norm_num [SUCCESS_EOF]) (by norm_num [SUCCESS_EOF, ERROR_EXCEPTION])
        rw [ReadStream.drain_succ fuel sizes i [] s _ _ _ hr2]
        simp [h0]
      | cons c rest =>
        have hcne : c ≠ [] := hcs c (List.mem_cons_self c rest)
        have hclen : 0 < c.length := List.length_pos.mpr hcne
        have hszi := hsz i
        have hr2 : s.readinto (ReadStream.drainReply (c :: rest)) (sizes i) =
            (ReadResult.bytes (c.take (min c.length (sizes i))),
             { s with read_len := c.length - min c.length (sizes i),
                      read_pos := min c.length (sizes i), chunk := c },
             [Msg.getMore s.connection_id]) := by
          rw [ReadStream.drainReply]
          exact ReadStream.readinto_chunk s c.length 0 (sizes i) c hlive h0 hclen
        have houtne : ¬ ((c.take (min c.length (sizes i))).isEmpty = true) := by
          rw [List.isEmpty_iff]
          intro hemp
          have h1 := List.length_take (min c.length (sizes i)) c
          rw [hemp] at h1
          simp at h1
          omega
        have hrec := ih rest
          { s with read_len := c.length - min c.length (sizes i),
                   read_pos := min c.length (sizes i), chunk := c }
          (i + 1) hlive (by dsimp only; omega)
          (fun d hd => hcs d (List.mem_cons_of_mem c hd))
          (by dsimp only
              simp only [List.map_cons, List.sum_cons] at hf
              omega)
        rw [ReadStream.drain_succ fuel sizes i (c :: rest) s _ _ _ hr2, if_neg houtne,
          if_pos h0, List.tail_cons, hrec]
        dsimp only
        rw [h0, List.take_zero, List.nil_append, List.flatten_cons,
          List.take_of_length_le (le_of_eq (List.length_drop _ _)),
          ← List.append_assoc, List.take_append_drop]
    · have hszi := hsz i
      have hretle : min s.read_len (sizes i) ≤ s.read_len := Nat.min_le_left _ _
      have hr2 := ReadStream.readinto_buffered s (ReadStream.drainReply cs) (sizes i) hlive h0
      have hXlen : (s.chunk.drop s.read_pos).length = s.chunk.length - s.read_pos :=
        List.length_drop _ _
      have houtne :
          ¬ (((s.chunk.drop s.read_pos).take (min s.read_len (sizes i))).isEmpty = true) := by
        rw [List.isEmpty_iff]
        intro hemp
        have h1 := List.length_take (min s.read_len (sizes i)) (s.chunk.drop s.read_pos)
        rw [hemp, hXlen] at h1
        simp at h1
        omega
      have hrec := ih cs
        { s with read_len := s.read_len - min s.read_len (sizes i),
                 read_pos := s.read_pos + min s.read_len (sizes i) }
        (i + 1) hlive (by dsimp only; omega) hcs (by dsimp only; omega)
      rw [ReadStream.drain_succ fuel sizes i cs s _ _ _ hr2, if_neg houtne, if_neg h0, hrec]
      dsimp only
      rw [← List.drop_drop, ← List.append_assoc, ← List.take_add,
        Nat.add_sub_cancel' hretle]

/-- Claim C1: chunk reassembly.  For every sequence of worker-delivered
chunks whose concatenation is `B`, and for every sequence of positive
caller buffer sizes, repeatedly calling `_ReadStream.readinto` until it
returns 0 yields a byte sequence exactly equal to `B`, regardless of how
`B` is split into chunks or which buffer sizes are chosen. -/
theorem readinto_chunk_reassembly (B : List Nat) (cs : List (List Nat)) (sizes : Nat → Nat)
    (fuel : Nat) (byte_buffer : List Nat) (timeout : Int) (connection_id : Nat)
    (hB : cs.flatten = B) (hcs : ∀ c ∈ cs, c ≠ []) (hsz : ∀ j, 0 < sizes j)
    (hfuel : (cs.map List.length).sum < fuel) :
    ReadStream.drain fuel sizes 0 cs (ReadStream.init byte_buffer timeout connection_id) = B := by
  rw [← hB,
    ReadStream.drain_spec sizes hsz fuel cs (ReadStream.init byte_buffer timeout connection_id) 0
      rfl (by simp [ReadStream.init]) hcs (by simpa [ReadStream.init] using hfuel)]
  simp [ReadStream.init]

/-- Witness for C1 at a concrete chunking, buffer contents and buffer
size sequence. -/
theorem readinto_chunk_reassembly_witness :
    ReadStream.drain 6 (fun _ => 2) 0 [[1, 2, 3], [4, 5]] (ReadStream.init [9, 9] 5 7) =
      [1, 2, 3, 4, 5] :=
  readinto_chunk_reassembly [1, 2, 3, 4, 5] [[1, 2, 3], [4, 5]] (fun _ => 2) 6 [9, 9] 5 7
    (by decide) (by decide) (fun _ => Nat.zero_lt_succ 1) (by decide)

example :
    ReadStream.drain 6 (fun _ => 2) 0 [[1, 2, 3], [4, 5]] (ReadStream.init [9, 9] 5 7) =
      [1, 2, 3, 4, 5] := by decide

example :
    ReadStream.drain 9 (fun j => if j = 0 then 1 else 4) 0 [[1], [2, 3, 4, 5], [6]]
      (ReadStream.init [] 0 7) = [1, 2, 3, 4, 5, 6] := by decide

/-! ### Post-EOF idempotence (C4) -/

/-- Claim C4: post-EOF idempotence — after EOF has been observed once
(the buffers were released), every further `readinto` call returns 0
immediately, leaves the stream unchanged and posts no further message to
the worker. -/
theorem readinto_post_eof_idempotent (s : ReadStream) (reply : WorkerReply) (bufsize : Nat)
    (h : s.buffer_live = false) :
    s.readinto reply bufsize = (ReadResult.bytes [], s, []) := by
  simp [ReadStream.readinto, h]

/-- Witness for C4 at a concrete dead stream. -/
theorem readinto_post_eof_idempotent_witness :
    streamDead.readinto (WorkerReply.signal 3 0 [1, 2, 3]) 5 =
      (ReadResult.bytes [], streamDead, []) :=
  readinto_post_eof_idempotent streamDead (WorkerReply.signal 3 0 [1, 2, 3]) 5 rfl

/-! ### Exception signal (C5) -/

/-- Counterexample to C5 as stated: on the EXCEPTION signal (-4),
`readinto` raises the bare `_StreamingError` — it decodes no message
from the payload — and does not release the Control Channel buffers: the
state comes back unchanged, still live. -/
theorem readinto_exception_counterexample :
    streamLive.readinto (WorkerReply.signal (-4) 13 [110, 111, 112]) 5 =
      (ReadResult.raiseStreamingError, streamLive, [Msg.getMore 7]) ∧
    streamLive.buffer_live = true := by decide

/-- Claim C5 (amended): when a read observes the EXCEPTION signal (-4),
the stream raises a streaming error carrying no message, without
releasing the Control Channel buffers (the state is unchanged) and
without decoding the payload region. -/
theorem readinto_exception_behavior (s : ReadStream) (slot1 bufsize : Nat) (payload : List Nat)
    (hl : s.buffer_live = true) (h0 : s.read_len = 0) :
    s.readinto (WorkerReply.signal ERROR_EXCEPTION slot1 payload) bufsize =
      (ReadResult.raiseStreamingError, s, [Msg.getMore s.connection_id]) := by
  simp [ReadStream.readinto, hl, h0, ERROR_EXCEPTION]

/-- Witness for C5 (amended) at a concrete live stream. -/
theorem readinto_exception_behavior_witness :
    streamLive.readinto (WorkerReply.signal ERROR_EXCEPTION 13 [110, 111, 112]) 5 =
      (ReadResult.raiseStreamingError, streamLive, [Msg.getMore 7]) :=
  readinto_exception_behavior streamLive 13 5 [110, 111, 112] rfl rfl

/-! ### EOF signal (C6) -/

/-- Counterexample to C6 as stated: on the EOF signal (-2) the stream
posts no close message at that point — the only message of the call is
the pull command that initiated the wait, so the worker is not told to
forget the connection when EOF is observed. -/
theorem readinto_eof_counterexample :
    streamLive.readinto (WorkerReply.signal (-2) 0 []) 4 =
      (ReadResult.bytes [], streamDead, [Msg.getMore 7]) ∧
    Msg.close 7 ∉ [Msg.getMore 7] := by decide

/-- Claim C6 (amended): on the EOF signal the stream drops its buffer
references (marking itself dead), resets the cursor, and returns 0,
posting only the pull command; the worker is told to forget the
connection only on finalization, where `__del__` posts the close
message. -/
theorem readinto_eof_behavior (s : ReadStream) (slot1 bufsize : Nat) (payload : List Nat)
    (hl : s.buffer_live = true) (h0 : s.read_len = 0) :
    s.readinto (WorkerReply.signal SUCCESS_EOF slot1 payload) bufsize =
      (ReadResult.bytes [],
       { s with read_len := 0, read_pos := 0, buffer_live := false, chunk := [] },
       [Msg.getMore s.connection_id]) ∧
    ReadStream.del s = [Msg.close s.connection_id] :=
  ⟨ReadStream.readinto_eofLike s SUCCESS_EOF slot1 bufsize payload hl h0
      (by norm_num [SUCCESS_EOF]) (by norm_num [SUCCESS_EOF, ERROR_EXCEPTION]),
   rfl⟩

/-- Witness for C6 (amended) at a concrete live stream. -/
theorem readinto_eof_behavior_witness :
    streamLive.readinto (WorkerReply.signal SUCCESS_EOF 0 []) 4 =
      (ReadResult.bytes [], streamDead, [Msg.getMore 7]) ∧
    ReadStream.del streamLive = [Msg.close 7] :=
  readinto_eof_behavior streamLive 0 4 [] rfl rfl

/-! ### Unrecognized signals (C7) -/

/-- Counterexample to C7 as stated: on the unrecognized signal value -5
neither consumer raises: `_StreamingFetcher.send` falls through all its
checks and returns None, and `_ReadStream.readinto` misclassifies the
signal as EOF and returns 0. -/
theorem unrecognized_signal_counterexample :
    StreamingFetcher.send req0 (-5) 0 [] decode0 parse0 = SendResult.returnsNone ∧
    streamLive.readinto (WorkerReply.signal (-5) 0 []) 4 =
      (ReadResult.bytes [], streamDead, [Msg.getMore 7]) := by decide

/-- Claim C7 (amended): unrecognized signal values are silently
swallowed, not raised: `_StreamingFetcher.send` returns None for every
observed slot-0 value other than 0, HEADER_READY (-1) and EXCEPTION
(-4), and `_ReadStream.readinto` treats every non-positive signal other
than EXCEPTION (-4) — the unrecognized ones included — as EOF, releasing
its buffers and returning 0. -/
theorem unrecognized_signal_behavior (v : Int) (slot1 : Nat) (payload : List Nat)
    (req : Request) (dec : List Nat → String) (pars : String → RespObj)
    (s : ReadStream) (bufsize : Nat)
    (h0 : v ≠ 0) (hh : v ≠ SUCCESS_HEADER) (he : v ≠ ERROR_EXCEPTION) :
    StreamingFetcher.send req v slot1 payload dec pars = SendResult.returnsNone ∧
    (s.buffer_live = true → s.read_len = 0 → ¬ 0 < v →
      s.readinto (WorkerReply.signal v slot1 payload) bufsize =
        (ReadResult.bytes [],
         { s with read_len := 0, read_pos := 0, buffer_live := false, chunk := [] },
         [Msg.getMore s.connection_id])) := by
  constructor
  · simp [StreamingFetcher.send, h0, hh, he]
  · intro hl hr hn
    exact ReadStream.readinto_eofLike s v slot1 bufsize payload hl hr hn he

/-- Witness for C7 (amended) at the concrete unrecognized signal -5. -/
theorem unrecognized_signal_behavior_witness :
    StreamingFetcher.send req0 (-5) 1 [5] decode0 parse0 = SendResult.returnsNone ∧
    streamLive.readinto (WorkerReply.signal (-5) 1 [5]) 4 =
      (ReadResult.bytes [], streamDead, [Msg.getMore 7]) :=
  ⟨(unrecognized_signal_behavior (-5) 1 [5] req0 decode0 parse0 streamLive 4
      (by decide) (by decide) (by decide)).1,
   (unrecognized_signal_behavior (-5) 1 [5] req0 decode0 parse0 streamLive 4
      (by decide) (by decide) (by decide)).2 rfl rfl (by decide)⟩

/-! ### Timeout handling in the fetcher (C3) -/

/-- Claim C3 evaluation: the locally-detected timeout (slot 0 still at
the reset sentinel 0 after the wait) raises `_StreamingTimeout` carrying
the original request, but a worker-written TIMEOUT signal (-3) matches
none of the checks in `_StreamingFetcher.send` (the constant
`ERROR_TIMEOUT` is never compared against), so `send` falls through and
returns None instead of raising the streaming-timeout error. -/
theorem fetcher_send_timeout_dispatch (req : Request) (slot1 : Nat) (payload : List Nat)
    (dec : List Nat → String) (pars : String → RespObj) :
    StreamingFetcher.send req 0 slot1 payload dec pars =
      SendResult.raiseTimeout ("Timeout connecting to streaming request") req ∧
    StreamingFetcher.send req ERROR_TIMEOUT slot1 payload dec pars =
      SendResult.returnsNone := by
  constructor
  · simp [StreamingFetcher.send]
  · norm_num [StreamingFetcher.send, ERROR_TIMEOUT, SUCCESS_HEADER, ERROR_EXCEPTION]

/-! ### Arity of the streaming call in orig_send (C2) -/

/-- Claim C2: whenever `orig_send` takes the streaming path (stream
requested while running in a worker), the call
`send_streaming_request(request)` supplies one positional argument to a
function with two required parameters, so the call raises `TypeError`
and `_StreamingFetcher.send` is never reached through `orig_send`. -/
theorem orig_send_streaming_type_error :
    orig_send_dispatch true true = (OrigSendOutcome.typeError, false) := by decide

/-! ### Response envelope (C8) -/

/-- One-step unfolding of `PrefixedReader.drain`. -/
theorem PrefixedReader.drain_step (fuel : Nat) (sizes : Nat → Nat) (i : Nat)
    (s : PrefixedReader) (out : List Nat) (s2 : PrefixedReader)
    (hr : s.readinto (sizes i) = (out, s2)) :
    PrefixedReader.drain (fuel + 1) sizes i s =
      if out.isEmpty then [] else out ++ PrefixedReader.drain fuel sizes (i + 1) s2 := by
  rw [PrefixedReader.drain, hr]

/-- Draining a `PrefixedReader` with positive buffer sizes yields the
remaining prefix followed by the remaining reader bytes. -/
theorem PrefixedReader.drain_serves_all (sizes : Nat → Nat) (hsz : ∀ j, 0 < sizes j) :
    ∀ fuel : Nat, ∀ s : PrefixedReader, ∀ i : Nat,
      (s.pfx.getD []).length + s.rdr.length < fuel →
      PrefixedReader.drain fuel sizes i s = s.pfx.getD [] ++ s.rdr := by
  intro fuel
  induction fuel with
  | zero =>
    intro s i hf
    omega
  | succ fuel ih =>
    intro s i hf
    have hszi := hsz i
    cases hs : s.pfx with
    | none =>
      rw [hs] at hf
      simp only [Option.getD_none, List.length_nil] at hf
      have hr : s.readinto (sizes i) =
          (s.rdr.take (sizes i), { pfx := none, rdr := s.rdr.drop (sizes i) }) := by
        simp only [PrefixedReader.readinto, hs]
      by_cases hout : ((s.rdr.take (sizes i)).isEmpty = true)
      · rw [PrefixedReader.drain_step fuel sizes i s _ _ hr, if_pos hout]
        rw [List.isEmpty_iff] at hout
        have h1 := List.length_take (sizes i) s.rdr
        rw [hout] at h1
        simp only [List.length_nil] at h1
        have hrdr : s.rdr.length = 0 := by omega
        rw [List.length_eq_zero.mp hrdr]
        rfl
      · rw [PrefixedReader.drain_step fuel sizes i s _ _ hr, if_neg hout]
        have hne : s.rdr.take (sizes i) ≠ [] := fun h => hout (by rw [h]; rfl)
        have hlen1 := List.length_pos.mpr hne
        rw [List.length_take] at hlen1
        have hrec := ih { pfx := none, rdr := s.rdr.drop (sizes i) } (i + 1)
          (by dsimp only
              simp only [Option.getD_none, List.length_nil, List.length_drop]
              omega)
        rw [hrec]
        dsimp only
        simp only [Option.getD_none, List.nil_append]
        rw [List.take_append_drop]
    | some p =>
      rw [hs] at hf
      simp only [Option.getD_some] at hf
      by_cases hle : p.length ≤ sizes i
      · have hr : s.readinto (sizes i) =
            (p ++ s.rdr.take (sizes i - p.length),
             { pfx := none, rdr := s.rdr.drop (sizes i - p.length) }) := by
          simp only [PrefixedReader.readinto, hs]
          rw [if_pos hle]
        by_cases hout : ((p ++ s.rdr.take (sizes i - p.length)).isEmpty = true)
        · rw [PrefixedReader.drain_step fuel sizes i s _ _ hr, if_pos hout]
          rw [List.isEmpty_iff, List.append_eq_nil] at hout
          obtain ⟨hp, ht⟩ := hout
          have h1 := List.length_take (sizes i - p.length) s.rdr
          rw [ht] at h1
          simp only [List.length_nil] at h1
          have hp0 : p.length = 0 := by rw [hp]; rfl
          have hrdr : s.rdr.length = 0 := by omega
          rw [hp, List.length_eq_zero.mp hrdr]
          rfl
        · rw [PrefixedReader.drain_step fuel sizes i s _ _ hr, if_neg hout]
          have hne : p ++ s.rdr.take (sizes i - p.length) ≠ [] :=
            fun h => hout (by rw [h]; rfl)
          have hlen1 := List.length_pos.mpr hne
          rw [List.length_append, List.length_take] at hlen1
          have hrec := ih { pfx := none, rdr := s.rdr.drop (sizes i - p.length) } (i + 1)
            (by dsimp only
                simp only [Option.getD_none, List.length_nil, List.length_drop]
                omega)
          rw [hrec]
          dsimp only
          simp only [Option.getD_none, Option.getD_some, List.nil_append]
          rw [List.append_assoc, List.take_append_drop]
      · have hr : s.readinto (sizes i) =
            (p.take (sizes i), { pfx := some (p.drop (sizes i)), rdr := s.rdr }) := by
          simp only [PrefixedReader.readinto, hs]
          rw [if_neg hle]
        have hout : ¬ ((p.take (sizes i)).isEmpty = true) := by
          rw [List.isEmpty_iff]
          intro hemp
          have h1 := List.length_take (sizes i) p
          rw [hemp] at h1
          simp only [List.length_nil] at h1
          omega
        rw [PrefixedReader.drain_step fuel sizes i s _ _ hr, if_neg hout]
        have hrec := ih { pfx := some (p.drop (sizes i)), rdr := s.rdr } (i + 1)
          (by dsimp only
              simp only [Option.getD_some]
              rw [List.length_drop]
              omega)
        rw [hrec]
        dsimp only
        simp only [Option.getD_some]
        rw [← List.append_assoc, List.take_append_drop]

/-- Claim C8: response envelope construction — in the streaming case,
draining the `PrefixedReader` (the byte source handed to the HTTP
parser) yields exactly the synthetic status-line-plus-header block
followed by the body bytes; in the non-streaming case `response_data` is
that same concatenation; and the synthetic block keeps every response
header except content-length and transfer-encoding, matched
case-insensitively. -/
theorem urlopen_envelope (status : Int) (hs : List (String × String)) (body : List Nat)
    (sizes : Nat → Nat) (fuel i : Nat) (hsz : ∀ j, 0 < sizes j)
    (hfuel : (response_header status hs).length + body.length < fuel) :
    PrefixedReader.drain fuel sizes i
        { pfx := some (response_header status hs), rdr := body } =
      response_header status hs ++ body ∧
    response_data status hs body = response_header status hs ++ body ∧
    (∀ kv : String × String, kv ∈ headers_without_content_length hs ↔
      kv ∈ hs ∧ lowerAscii kv.1 ≠ ("content-length") ∧
        lowerAscii kv.1 ≠ ("transfer-encoding")) := by
  refine ⟨?_, rfl, ?_⟩
  · have h := PrefixedReader.drain_serves_all sizes hsz fuel
      { pfx := some (response_header status hs), rdr := body } i
      (by dsimp only; simpa using hfuel)
    simpa using h
  · intro kv
    simp [headers_without_content_length, List.mem_filter, not_or]

/-- Witness for C8 at a concrete status, header dict, body and buffer
size sequence. -/
theorem urlopen_envelope_witness :
    PrefixedReader.drain 100 (fun _ => 5) 0
        { pfx := some (response_header 200 hsW), rdr := [97, 98] } =
      response_header 200 hsW ++ [97, 98] :=
  (urlopen_envelope 200 hsW [97, 98] (fun _ => 5) 100 0 (fun _ => Nat.zero_lt_succ 4)
    (by decide)).1

/-! ### HTTP status dispatch (C9) -/

/-- Claim C9: for every response whose status is outside the 2xx range,
`urlopen` raises an `HTTPError` carrying the URL, the status and the
reconstructed headers, never returning the response; for every 2xx
status it returns the response without raising. -/
theorem urlopen_status_dispatch (resp : ParsedResponse) :
    (¬ (200 ≤ resp.status ∧ resp.status < 300) →
      urlopen_status_check resp =
        Except.error
          { url := resp.url, code := resp.status,
            msg := ("HTTP Error ") ++ toString resp.status, hdrs := resp.headers }) ∧
    ((200 ≤ resp.status ∧ resp.status < 300) →
      urlopen_status_check resp = Except.ok resp) := by
  constructor
  · intro h
    simp [urlopen_status_check, h]
  · intro h
    simp [urlopen_status_check, h]

/-- Witness for C9 at a 404 and a 200 response. -/
theorem urlopen_status_dispatch_witness :
    urlopen_status_check resp404 =
      Except.error
        { url := resp404.url, code := resp404.status,
          msg := ("HTTP Error ") ++ toString resp404.status, hdrs := resp404.headers } ∧
    urlopen_status_check resp200 = Except.ok resp200 :=
  ⟨(urlopen_status_dispatch resp404).1 (by decide),
   (urlopen_status_dispatch resp200).2 (by decide)⟩

/-! ### Request mutation (C10) -/

/-- Counterexample to C10 as stated: `send` replaces the headers dict of
the request it was handed — a request carrying an `origin` header comes
back with its headers emptied, so after the call the request differs
from the one passed in. -/
theorem send_mutates_request_counterexample :
    send_request_transform reqOrigin ≠ reqOrigin := by decide

/-- Claim C10 (amended): the only mutations on the send path are the two
the source performs before dispatch — `send` replaces `request.headers`
with the non-blocked subset, and `orig_send` appends the encoded query
string to `request.url` when `params` is truthy; `method`, `body`,
`timeout` and `params` are never mutated, and when `params` is falsy the
URL is unchanged. -/
theorem request_mutation_behavior (r : Request) (enc : String) :
    (orig_send_params_transform enc (send_request_transform r)).method = r.method ∧
    (orig_send_params_transform enc (send_request_transform r)).body = r.body ∧
    (orig_send_params_transform enc (send_request_transform r)).timeout = r.timeout ∧
    (orig_send_params_transform enc (send_request_transform r)).params = r.params ∧
    (orig_send_params_transform enc (send_request_transform r)).headers =
      (send_process_headers r.headers).1 ∧
    (pyTruthyParams r.params = false →
      (orig_send_params_transform enc (send_request_transform r)).url = r.url) ∧
    (pyTruthyParams r.params = true →
      (orig_send_params_transform enc (send_request_transform r)).url =
        r.url ++ ("?") ++ enc) := by
  dsimp only [orig_send_params_transform, send_request_transform]
  by_cases hp : pyTruthyParams r.params = true
  · rw [if_pos hp]
    refine ⟨rfl, rfl, rfl, rfl, rfl, fun hfalse => ?_, fun _ => rfl⟩
    rw [hfalse] at hp
    exact absurd hp Bool.false_ne_true
  · rw [if_neg hp]
    refine ⟨rfl, rfl, rfl, rfl, rfl, fun _ => rfl, fun htrue => ?_⟩
    exact absurd htrue hp

/-- Witness for C10 (amended): the headers mutation and the unchanged
URL at a params-free request, and the URL append at a request with a
truthy params dict. -/
theorem request_mutation_behavior_witness :
    (orig_send_params_transform ("a=b") (send_request_transform reqOrigin)).headers =
      (send_process_headers reqOrigin.headers).1 ∧
    (orig_send_params_transform ("a=b") (send_request_transform reqOrigin)).url =
      reqOrigin.url ∧
    (orig_send_params_transform ("a=b") (send_request_transform reqParams)).url =
      reqParams.url ++ ("?") ++ ("a=b") :=
  ⟨(request_mutation_behavior reqOrigin ("a=b")).2.2.2.2.1,
   (request_mutation_behavior reqOrigin ("a=b")).2.2.2.2.2.1 (by decide),
   (request_mutation_behavior reqParams ("a=b")).2.2.2.2.2.2 (by decide)⟩

end PyodideHttp
